import Mathlib

/-!
Verification of `src/App.py` (Substack-reader): a shallow embedding of the
three logic routines — `extract_slug` / `get_substack_api_data` (the fetcher),
`generate_cover` (the cover renderer) and `create_epub` (the packager) —
together with theorems settling the specification's claims about them.

Modelling conventions:
* A parsed JSON object is modelled as a structure whose fields are `Option`s;
  `none` models an absent key, so Python's `dict.get(k, default)` becomes
  `Option.getD`.
* The two HTTP responses are an environment (`Env`) passed to the fetcher:
  a status code plus the already-parsed structured body for each request.
* Python exceptions inside the fetcher's `try` block are an `Except String`
  computation; the `except Exception as e: return None, str(e)` handler is the
  final `match` converting it to the `(data, error)` pair the function returns.
* `datetime.fromisoformat(...).strftime("%B %d, %Y")` is modelled by
  `pyFromIsoFormat` / `strftime_BdY`: the `YYYY-MM-DD` prefix is parsed and
  validated (digits, dashes, month and day ranges, with Python's error
  messages); the time-of-day part, which `"%B %d, %Y"` never displays, is not
  interpreted.
* A PIL image is modelled structurally (`CoverImage`): dimensions, background
  colour and the ordered list of drawing operations. The JPEG serialization
  (`img.save`) and the font handles (the same built-in default in every
  branch) are library details carrying no claim-relevant information and are
  not modelled.
-/

/-- An RGB colour triple, as PIL's `(r, g, b)` tuples. -/
structure RGB where
  r : Nat
  g : Nat
  b : Nat
deriving DecidableEq, Repr

/-- A colour argument as the source passes it: either a named CSS colour
string such as `"black"` or an explicit RGB triple. -/
inductive PyColor where
  | named (s : String)
  | rgb (r g b : Nat)
deriving DecidableEq, Repr

/-- One PIL drawing operation issued by `generate_cover`. -/
inductive DrawOp where
  | rect (x0 y0 x1 y1 : Int) (outline : Option PyColor) (fill : Option PyColor) (lineWidth : Nat)
  | text (x y : Int) (content : String) (fill : PyColor)
  | line (x0 y0 x1 y1 : Int) (fill : PyColor) (lineWidth : Nat)
deriving DecidableEq, Repr

/-- The raster image `generate_cover` builds: `Image.new('RGB', (width,
height), background)` followed by the listed drawing operations. -/
structure CoverImage where
  width : Nat
  height : Nat
  background : RGB
  ops : List DrawOp
deriving DecidableEq, Repr

/-- One entry of the metadata response's `publishedBylines` array. -/
structure Byline where
  name : Option String
deriving DecidableEq, Repr

/-- The parsed body of the post-metadata response, with the fields
`get_substack_api_data` reads. `none` models an absent key. -/
structure PostMeta where
  id : Option Int
  title : Option String
  publishedBylines : Option (List Byline)
  post_date : Option String
  body_html : Option String
deriving DecidableEq, Repr

/-- One entry of the comment response's `comments` array. -/
structure CommentJson where
  name : Option String
  body : Option String
deriving DecidableEq, Repr

/-- The network environment of one fetch: status and parsed body of the
metadata request, and status and parsed `comments` field of the comment
request (issued only when the post id is truthy). -/
structure Env where
  metaStatus : Int
  metaBody : PostMeta
  commentStatus : Int
  commentsField : Option (List CommentJson)
deriving DecidableEq, Repr

/-- The dictionary `get_substack_api_data` returns on success. -/
structure RecordData where
  title : String
  author : String
  date : String
  body : String
  comments : List String
  url : String
  domain : String
deriving DecidableEq, Repr

/-- Locate the first occurrence of the non-empty pattern `pat` in `l`:
the characters before it and the characters after it, or `none`. -/
def findSplit (pat : List Char) : List Char → Option (List Char × List Char)
  | [] => none
  | c :: rest =>
    if pat.isPrefixOf (c :: rest) then some ([], (c :: rest).drop pat.length)
    else
      match findSplit pat rest with
      | none => none
      | some (pre, post) => some (c :: pre, post)

/-- Fuel-driven split on the leftmost non-overlapping occurrences of `pat`,
the recursion Python's `str.split` performs. The fuel is an upper bound on
the number of splits; `pySplit` passes one more than the string length. -/
def splitAux (pat : List Char) : Nat → List Char → List (List Char)
  | 0, l => [l]
  | fuel + 1, l =>
    match findSplit pat l with
    | none => [l]
    | some (pre, post) => pre :: splitAux pat fuel post

/-- Python's `s.split(sep)` for a non-empty separator. -/
def pySplit (s sep : String) : List String :=
  (splitAux sep.data (s.data.length + 1) s.data).map fun cs => String.mk cs

/-- Python's `s.replace(pat, rep)` for a non-empty pattern: every
non-overlapping occurrence of `pat` becomes `rep`. -/
def pyReplace (s pat rep : String) : String :=
  String.intercalate rep (pySplit s pat)

/-- Python's `pat in s` substring test for a non-empty pattern: `s.split(pat)`
has at least two parts exactly when `pat` occurs in `s`. -/
def pyContains (s pat : String) : Bool :=
  decide (2 ≤ (pySplit s pat).length)

/-- Python's `not x` on an optional string: true for `None` and `""`. -/
def pyFalsyStr (s : Option String) : Bool :=
  match s with
  | none => true
  | some t => t == ""

/-- Python truthiness of `data.get("id")`: false for `None` and `0`. -/
def pyTruthyOptInt (n : Option Int) : Bool :=
  match n with
  | none => false
  | some k => k != 0

/-- `extract_slug` (App.py lines 14-22): if `"/p/" in url`, return
`url.split("/p/")[1].split("/")[0].split("?")[0]`, else `None`. The `try`
wrapper in the source is dead: none of these operations can raise once the
membership test passed. -/
def extract_slug (url : String) : Option String :=
  if pyContains url "/p/" then
    some (((pySplit ((pySplit ((pySplit url "/p/").getD 1 "") "/").headD "") "?").headD ""))
  else
    none

/-- English month names, for `strftime("%B ...")`. -/
def monthNames : List String :=
  ["January", "February", "March", "April", "May", "June",
   "July", "August", "September", "October", "November", "December"]

/-- Day count of a month, with the Gregorian leap rule, matching the range
check `datetime.fromisoformat` performs. -/
def daysInMonth (y : Nat) (m : Nat) : Nat :=
  if m = 2 then
    (if y % 4 = 0 ∧ (y % 100 ≠ 0 ∨ y % 400 = 0) then 29 else 28)
  else if m = 4 ∨ m = 6 ∨ m = 9 ∨ m = 11 then 30
  else 31

/-- Numeric value of a decimal digit character. -/
def digitVal (c : Char) : Nat := c.toNat - 48

/-- Model of `datetime.fromisoformat`, restricted to the `YYYY-MM-DD` date
part (the only part `strftime("%B %d, %Y")` displays): validates the digit
and dash layout and the month/day ranges, raising (as `Except.error`) with
Python's messages otherwise. -/
def pyFromIsoFormat (s : String) : Except String (Nat × Nat × Nat) :=
  let cs := s.data
  let c := fun (i : Nat) => cs.getD i ' '
  if cs.length < 10 then
    .error ("Invalid isoformat string: " ++ s)
  else if ¬((c 0).isDigit ∧ (c 1).isDigit ∧ (c 2).isDigit ∧ (c 3).isDigit ∧
            c 4 = '-' ∧ (c 5).isDigit ∧ (c 6).isDigit ∧ c 7 = '-' ∧
            (c 8).isDigit ∧ (c 9).isDigit) then
    .error ("Invalid isoformat string: " ++ s)
  else
    let y := 1000 * digitVal (c 0) + 100 * digitVal (c 1) + 10 * digitVal (c 2) + digitVal (c 3)
    let m := 10 * digitVal (c 5) + digitVal (c 6)
    let d := 10 * digitVal (c 8) + digitVal (c 9)
    if m < 1 ∨ 12 < m then .error "month must be in 1..12"
    else if d < 1 ∨ daysInMonth y m < d then .error "day is out of range for month"
    else .ok (y, m, d)

/-- Zero-pad a number to two digits, as `strftime("%d")`. -/
def pad2 (n : Nat) : String :=
  if n < 10 then "0" ++ toString n else toString n

/-- `strftime("%B %d, %Y")` on a parsed (year, month, day). -/
def strftime_BdY (t : Nat × Nat × Nat) : String :=
  monthNames.getD (t.2.1 - 1) "" ++ " " ++ pad2 t.2.2 ++ ", " ++ toString t.1

/-- The `date_str` computation (App.py line 52):
`datetime.fromisoformat(date_iso.replace("Z", "+00:00")).strftime("%B %d, %Y")
if date_iso else "Undated"`, as an exception-carrying computation. -/
def dateStrE (pd : Option String) : Except String String :=
  if pyFalsyStr pd then
    .ok "Undated"
  else
    match pyFromIsoFormat (pyReplace (pd.getD "") "Z" "+00:00") with
    | .error e => .error e
    | .ok t => .ok (strftime_BdY t)

/-- The indexing `bylines[0]` (App.py line 50): `IndexError` on an empty
list, with CPython's message. -/
def firstBylineE (bs : List Byline) : Except String Byline :=
  match bs with
  | [] => .error "list index out of range"
  | b :: _ => .ok b

/-- The comment-formatting loop (App.py lines 63-68): keep each comment whose
body is truthy, rendered as `<b>{name}:</b> {body}` with `"Anonymous"` when
the `name` key is absent. -/
def formatComments (cs : List CommentJson) : List String :=
  cs.filterMap (fun c =>
    let b := c.body.getD ""
    let u := c.name.getD "Anonymous"
    if b = "" then none else some ("<b>" ++ u ++ ":</b> " ++ b))

/-- The spec's description of one formatted comment entry, author name and
body joined by the bold-faced colon separator, to compare `formatComments`
against: `"<b>name:</b> body"` with `"Anonymous"` for a missing name. -/
def commentEntry (c : CommentJson) : String :=
  "<b>" ++ c.name.getD "Anonymous" ++ ":</b> " ++ c.body.getD ""

/-- The spec's test for a comment being kept: its body is non-empty. -/
def hasNonEmptyBody (c : CommentJson) : Bool :=
  c.body.getD "" != ""

/-- The body of the big `try` block of `get_substack_api_data` (App.py lines
42-78): metadata status check, field extraction with defaults, optional
comment fetch, record assembly. An `Except.error` is a raised exception or an
early error return; the caller turns both into the `(None, message)` pair. -/
def fetchBody (url domain : String) (env : Env) : Except String RecordData :=
  if env.metaStatus ≠ 200 then
    .error ("API Error: " ++ toString env.metaStatus)
  else
    match firstBylineE (env.metaBody.publishedBylines.getD [{ name := none }]) with
    | .error e => .error e
    | .ok fb =>
      match dateStrE env.metaBody.post_date with
      | .error e => .error e
      | .ok date_str =>
        .ok { title := env.metaBody.title.getD "Untitled",
              author := fb.name.getD "Unknown Author",
              date := date_str,
              body := env.metaBody.body_html.getD "",
              comments :=
                if pyTruthyOptInt env.metaBody.id then
                  if env.commentStatus = 200 then
                    formatComments (env.commentsField.getD [])
                  else []
                else [],
              url := url,
              domain := domain }

/-- The domain slice `url.split("//")[1].split("/")[0]` (App.py line 34),
well defined once `"//" in url` holds. -/
def parseDomain (url : String) : String :=
  (pySplit ((pySplit url "//").getD 1 "") "/").headD ""

/-- `get_substack_api_data` (App.py lines 24-81): slug check, domain
extraction (`IndexError` when the URL has no `"//"`), then the `try` block. -/
def get_substack_api_data (url : String) (env : Env) : Option RecordData × Option String :=
  if pyFalsyStr (extract_slug url) then
    (none, some "Invalid Substack URL. Must contain \x27/p/\x27.")
  else if ¬ pyContains url "//" then
    (none, some "Could not parse domain.")
  else
    match fetchBody url (parseDomain url) env with
    | .ok r => (some r, none)
    | .error e => (none, some e)

/-- Python's `s.upper()` on the ASCII range: uppercase each character. -/
def pyUpper (s : String) : String :=
  String.mk (s.data.map Char.toUpper)

/-- The image an unrecognized style tag yields: the initial
`Image.new('RGB', (600, 900), (255, 255, 255))` with no drawing performed. -/
def baseWhiteCover : CoverImage :=
  { width := 600, height := 900, background := ⟨255, 255, 255⟩, ops := [] }

/-- `generate_cover` (App.py lines 94-147): a 600×900 image drawn by one of
three style recipes; a style tag matching none of them leaves the initial
white canvas untouched. Fonts (the same `ImageFont.load_default()` in every
branch) carry no information and are not modelled. -/
def generate_cover (style : String) (data : RecordData) : CoverImage :=
  if style = "Classic Typography" then
    { width := 600, height := 900, background := ⟨248, 241, 229⟩,
      ops := [ .rect 20 20 580 880 (some (.rgb 0 0 0)) none 3,
               .text 50 200 data.title (.named "black"),
               .text 50 400 data.author (.named "black"),
               .text 50 450 data.date (.named "gray"),
               .text 50 800 "SUBSTACK ARCHIVE" (.named "gray") ] }
  else if style = "Modern Dark" then
    { width := 600, height := 900, background := ⟨20, 20, 20⟩,
      ops := [ .rect 0 150 20 350 none (some (.rgb 255 87 34)) 1,
               .text 50 150 data.title (.named "white"),
               .text 50 500 ("Written by " ++ data.author) (.named "lightgray"),
               .text 50 530 data.date (.named "gray") ] }
  else if style = "Minimalist White" then
    { width := 600, height := 900, background := ⟨255, 255, 255⟩,
      ops := [ .text 50 50 "ARTICLE" (.named "red"),
               .text 50 100 data.title (.named "black"),
               .line 50 300 550 300 (.named "black") 2,
               .text 50 320 (pyUpper data.author) (.named "black"),
               .text 50 850 data.domain (.named "gray") ] }
  else
    baseWhiteCover

/-- One `EpubHtml` document as `create_epub` builds it. -/
structure EpubHtmlItem where
  title : String
  file_name : String
  lang : String
  content : String
deriving DecidableEq, Repr

/-- The `EpubBook` assembled by `create_epub`: metadata, the optional cover
(set by `set_cover`), the `EpubHtml` documents added by `add_item` (the
`EpubNcx`/`EpubNav` machinery items are the two flags), the table of contents
and the spine (`'nav'` plus chapter file names). -/
structure EpubBookModel where
  identifier : String
  book_title : String
  language : String
  authors : List String
  cover : Option (String × CoverImage)
  items : List EpubHtmlItem
  toc : List EpubHtmlItem
  spine : List String
  has_ncx : Bool
  has_nav : Bool
deriving DecidableEq, Repr

/-- The `intro_html` f-string of `create_epub` (App.py lines 161-167), with
its literal newlines and indentation. -/
def introHtml (data : RecordData) : String :=
  "\n    <h1>" ++ data.title ++ "</h1>\n    <h3>" ++ data.author ++
  "</h3>\n    <p><i>" ++ data.date ++ "</i></p>\n    <p>Source: <a href=\"" ++
  data.url ++ "\">" ++ data.url ++ "</a></p>\n    <hr/>\n    "

/-- One comment block of the comments section (App.py line 176). -/
def commentDiv (c : String) : String :=
  "<div style=\x27margin-bottom:15px; border-left:2px solid #ccc; padding-left:10px;\x27>" ++
  c ++ "</div>"

/-- The comments section appended to the chapter (App.py lines 173-176):
present exactly when `data['comments']` is truthy, i.e. non-empty. -/
def commentsSectionHtml (comments : List String) : String :=
  if comments.isEmpty then ""
  else "<hr/><h1>Comments</h1>" ++ String.join (comments.map commentDiv)

/-- `create_epub` (App.py lines 151-189): one-chapter book with the given
cover embedded and metadata copied from the record. -/
def create_epub (data : RecordData) (cover_bytes : CoverImage) : EpubBookModel :=
  let final_html := introHtml data ++ data.body ++ commentsSectionHtml data.comments
  let c1 : EpubHtmlItem :=
    { title := "Article", file_name := "article.xhtml", lang := "en", content := final_html }
  { identifier := data.url,
    book_title := data.title,
    language := "en",
    authors := [data.author],
    cover := some ("cover.jpg", cover_bytes),
    items := [c1],
    toc := [c1],
    spine := ["nav", "article.xhtml"],
    has_ncx := true,
    has_nav := true }

/-- A sample record used to exercise `generate_cover` at concrete inputs. -/
def sampleRecordC1 : RecordData :=
  { title := "Hello", author := "A", date := "January 01, 2024",
    body := "<p>hi</p>", comments := [], url := "https://x.substack.com/p/hello",
    domain := "x.substack.com" }

/-- The metadata body of the worked scenario (spec section 8). -/
def metaC8 : PostMeta :=
  { id := some 1, title := some "Hello",
    publishedBylines := some [{ name := some "A" }],
    post_date := some "2024-01-01T00:00:00Z",
    body_html := some "<p>hi</p>" }

/-- The environment of the worked scenario (spec section 8): both requests
succeed, one comment by "B" with body "nice". -/
def envC8 : Env :=
  { metaStatus := 200, metaBody := metaC8, commentStatus := 200,
    commentsField := some [{ name := some "B", body := some "nice" }] }

/-- The record the worked scenario produces. -/
def recordC8 : RecordData :=
  { title := "Hello", author := "A", date := "January 01, 2024",
    body := "<p>hi</p>", comments := ["<b>B:</b> nice"],
    url := "https://x.substack.com/p/hello", domain := "x.substack.com" }

/-- A metadata body with every optional key absent. -/
def emptyMeta : PostMeta :=
  { id := none, title := none, publishedBylines := none,
    post_date := none, body_html := none }

/-- An environment whose 200-status metadata response has no title, byline
or date keys. -/
def envC3 : Env :=
  { metaStatus := 200, metaBody := emptyMeta, commentStatus := 0,
    commentsField := none }

/-- An environment where the metadata request succeeds but the comment
request fails with a 404 status. -/
def envC5 : Env :=
  { metaStatus := 200,
    metaBody := { id := some 1, title := some "T",
                  publishedBylines := some [{ name := some "A" }],
                  post_date := none, body_html := some "<p>b</p>" },
    commentStatus := 404,
    commentsField := some [{ name := some "B", body := some "x" }] }

/-- An arbitrary concrete environment, for exercising URL-validation paths
the network never reaches. -/
def envIdle : Env :=
  { metaStatus := 200, metaBody := emptyMeta, commentStatus := 200,
    commentsField := none }

/-!
Helper lemmas shared by the claim theorems.
-/

/-- A string with a non-empty prefix is non-empty. -/
theorem append_ne_empty_left (s t : String) (h : s ≠ "") : s ++ t ≠ "" := by
  intro he
  apply h
  cases s with
  | mk ds =>
    cases t with
    | mk dt =>
      have hd : ds ++ dt = [] := congrArg String.data he
      have h2 : ds = [] := by
        cases ds with
        | nil => rfl
        | cons a l => simp at hd
      simp [h2]

/-- `firstBylineE` only raises the `IndexError` message, which is
non-empty. -/
theorem firstBylineE_error_ne (bs : List Byline) (e : String)
    (h : firstBylineE bs = .error e) : e ≠ "" := by
  cases bs with
  | nil =>
    simp only [firstBylineE] at h
    cases h
    decide
  | cons b l => simp [firstBylineE] at h

/-- Every error message `pyFromIsoFormat` raises is non-empty. -/
theorem pyFromIsoFormat_error_ne (s e : String)
    (h : pyFromIsoFormat s = .error e) : e ≠ "" := by
  dsimp only [pyFromIsoFormat] at h
  split at h
  · cases h
    exact append_ne_empty_left _ _ (by decide)
  · split at h
    · cases h
      exact append_ne_empty_left _ _ (by decide)
    · split at h
      · cases h
        decide
      · split at h
        · cases h
          decide
        · cases h

/-- Every error message `dateStrE` raises is non-empty. -/
theorem dateStrE_error_ne (pd : Option String) (e : String)
    (h : dateStrE pd = .error e) : e ≠ "" := by
  dsimp only [dateStrE] at h
  split at h
  · cases h
  · split at h
    · next heq =>
      cases h
      exact pyFromIsoFormat_error_ne _ _ heq
    · cases h

/-- `fetchBody` either returns a record or an error with a non-empty
message. -/
theorem fetchBody_cases (url domain : String) (env : Env) :
    (∃ r, fetchBody url domain env = .ok r) ∨
    (∃ e, fetchBody url domain env = .error e ∧ e ≠ "") := by
  by_cases hs : env.metaStatus = 200
  · cases hfb : firstBylineE (env.metaBody.publishedBylines.getD [{ name := none }]) with
    | error e =>
      right
      refine ⟨e, ?_, firstBylineE_error_ne _ _ hfb⟩
      unfold fetchBody
      rw [if_neg (fun hne => hne hs), hfb]
    | ok fb =>
      cases hds : dateStrE env.metaBody.post_date with
      | error e =>
        right
        refine ⟨e, ?_, dateStrE_error_ne _ _ hds⟩
        unfold fetchBody
        rw [if_neg (fun hne => hne hs), hfb, hds]
      | ok ds =>
        left
        exact ⟨_, by unfold fetchBody; rw [if_neg (fun hne => hne hs), hfb, hds]⟩
  · right
    refine ⟨"API Error: " ++ toString env.metaStatus, ?_,
      append_ne_empty_left _ _ (by decide)⟩
    unfold fetchBody
    rw [if_pos hs]

/-- C1 counterexample: the claim says an unrecognized style tag raises an
invalid-style error and produces no image; at the concrete tag "Gothic" the
code instead raises nothing and returns the untouched 600×900 white canvas. -/
theorem claim_C1_counterexample :
    generate_cover "Gothic" sampleRecordC1 = baseWhiteCover ∧
    baseWhiteCover.width = 600 ∧ baseWhiteCover.height = 900 :=
  ⟨rfl, rfl, rfl⟩

/-- C1 (amended): for every style tag other than the three fixed values,
`generate_cover` raises no error and returns the untouched plain-white
600×900 canvas with no drawing operations. -/
theorem claim_C1_unknown_style (style : String) (data : RecordData)
    (h1 : style ≠ "Classic Typography") (h2 : style ≠ "Modern Dark")
    (h3 : style ≠ "Minimalist White") :
    generate_cover style data = baseWhiteCover := by
  unfold generate_cover
  rw [if_neg h1, if_neg h2, if_neg h3]

/-- C1 witness: the amended theorem applied at the concrete tag "Gothic". -/
theorem claim_C1_witness :
    ("Gothic" ≠ "Classic Typography" ∧ "Gothic" ≠ "Modern Dark" ∧
     "Gothic" ≠ "Minimalist White") ∧
    generate_cover "Gothic" sampleRecordC1 = baseWhiteCover :=
  ⟨⟨by decide, by decide, by decide⟩,
   claim_C1_unknown_style "Gothic" sampleRecordC1 (by decide) (by decide) (by decide)⟩

/-- C2 counterexample: the claim says each entry is formatted as
"name: body"; the concrete comment (name "B", body "nice") is instead stored
as "<b>B:</b> nice", which is not "B: nice". -/
theorem claim_C2_counterexample :
    formatComments [{ name := some "B", body := some "nice" }] = ["<b>B:</b> nice"] ∧
    formatComments [{ name := some "B", body := some "nice" }] ≠ ["B: nice"] :=
  ⟨rfl, by decide⟩

/-- Unfolding of `formatComments` on a cons cell. -/
theorem formatComments_cons (c : CommentJson) (cs : List CommentJson) :
    formatComments (c :: cs) =
      if c.body.getD "" = "" then formatComments cs
      else commentEntry c :: formatComments cs := by
  by_cases hb : c.body.getD "" = "" <;>
    simp [formatComments, List.filterMap_cons, hb, commentEntry]

/-- C2 (amended): the comments field has exactly one entry per comment with a
non-empty body, in source order, each formatted as "<b>name:</b> body" (with
"Anonymous" for a missing name). -/
theorem claim_C2_comment_entries (cs : List CommentJson) :
    formatComments cs = (cs.filter hasNonEmptyBody).map commentEntry ∧
    (formatComments cs).length = (cs.filter hasNonEmptyBody).length := by
  have h1 : formatComments cs = (cs.filter hasNonEmptyBody).map commentEntry := by
    induction cs with
    | nil => rfl
    | cons c cs ih =>
      rw [formatComments_cons, List.filter_cons]
      by_cases hb : c.body.getD "" = ""
      · have hp : hasNonEmptyBody c = false := by simp [hasNonEmptyBody, hb]
        rw [if_pos hb, hp]
        simpa using ih
      · have hp : hasNonEmptyBody c = true := by simp [hasNonEmptyBody, hb]
        rw [if_neg hb, hp]
        simp [ih]
  exact ⟨h1, by rw [h1, List.length_map]⟩

/-- C8 counterexample: the claim says the worked scenario's comments field is
exactly ["B: nice"]; evaluating the fetch at that input yields the record
`recordC8`, whose comments field is ["<b>B:</b> nice"], not ["B: nice"]. -/
theorem claim_C8_counterexample :
    get_substack_api_data "https://x.substack.com/p/hello" envC8 = (some recordC8, none) ∧
    recordC8.comments ≠ ["B: nice"] :=
  ⟨rfl, by decide⟩

/-- C8 (amended): the worked scenario yields a record with date
"January 01, 2024" and comments ["<b>B:</b> nice"]. -/
theorem claim_C8_scenario :
    get_substack_api_data "https://x.substack.com/p/hello" envC8 = (some recordC8, none) ∧
    recordC8.date = "January 01, 2024" ∧
    recordC8.comments = ["<b>B:</b> nice"] :=
  ⟨rfl, rfl, rfl⟩

/-- C4: for every URL not containing "/p/" and every network environment, the
fetch returns no record and the descriptive input error. -/
theorem claim_C4_no_marker (url : String) (env : Env)
    (h : pyContains url "/p/" = false) :
    get_substack_api_data url env =
      (none, some "Invalid Substack URL. Must contain \x27/p/\x27.") := by
  unfold get_substack_api_data extract_slug
  rw [h]
  simp [pyFalsyStr]

/-- C4 witness: the theorem applied at a concrete URL without "/p/". -/
theorem claim_C4_witness :
    pyContains "https://example.com/about" "/p/" = false ∧
    get_substack_api_data "https://example.com/about" envIdle =
      (none, some "Invalid Substack URL. Must contain \x27/p/\x27.") :=
  ⟨by decide, claim_C4_no_marker "https://example.com/about" envIdle (by decide)⟩

/-- C7: for every record, each of the three fixed style tags yields a 600×900
image, and for the same record the three styles yield pairwise distinct
images (their background colours already differ). -/
theorem claim_C7_cover_styles (data : RecordData) :
    (generate_cover "Classic Typography" data).width = 600 ∧
    (generate_cover "Classic Typography" data).height = 900 ∧
    (generate_cover "Modern Dark" data).width = 600 ∧
    (generate_cover "Modern Dark" data).height = 900 ∧
    (generate_cover "Minimalist White" data).width = 600 ∧
    (generate_cover "Minimalist White" data).height = 900 ∧
    generate_cover "Classic Typography" data ≠ generate_cover "Modern Dark" data ∧
    generate_cover "Classic Typography" data ≠ generate_cover "Minimalist White" data ∧
    generate_cover "Modern Dark" data ≠ generate_cover "Minimalist White" data := by
  refine ⟨rfl, rfl, rfl, rfl, rfl, rfl, ?_, ?_, ?_⟩
  · intro h
    have hb : RGB.mk 248 241 229 = RGB.mk 20 20 20 := congrArg CoverImage.background h
    exact absurd hb (by decide)
  · intro h
    have hb : RGB.mk 248 241 229 = RGB.mk 255 255 255 := congrArg CoverImage.background h
    exact absurd hb (by decide)
  · intro h
    have hb : RGB.mk 20 20 20 = RGB.mk 255 255 255 := congrArg CoverImage.background h
    exact absurd hb (by decide)

/-- C10: a comment with a non-empty body and no name key is kept, formatted
with the fallback author name "Anonymous". -/
theorem claim_C10_anonymous (cs : List CommentJson) (c : CommentJson)
    (hmem : c ∈ cs) (hname : c.name = none) (hbody : c.body.getD "" ≠ "") :
    ("<b>Anonymous:</b> " ++ c.body.getD "") ∈ formatComments cs := by
  unfold formatComments
  rw [List.mem_filterMap]
  refine ⟨c, hmem, ?_⟩
  simp [hname, hbody]

/-- C10 witness: the theorem applied to a one-comment list whose comment has
body "nice" and no name key. -/
theorem claim_C10_witness :
    ({ name := none, body := some "nice" } : CommentJson).body.getD "" ≠ "" ∧
    "<b>Anonymous:</b> nice" ∈ formatComments [{ name := none, body := some "nice" }] :=
  ⟨by decide,
   claim_C10_anonymous [{ name := none, body := some "nice" }]
     { name := none, body := some "nice" } (List.Mem.head _) rfl (by decide)⟩

/-- C6: for every record and cover, the packaged book has exactly one chapter
(whose content is the intro, the body, then the comments section), exactly
one embedded cover, and the comments section is present (non-empty) exactly
when the record's comments are non-empty. -/
theorem claim_C6_epub (data : RecordData) (cb : CoverImage) :
    (create_epub data cb).items =
      [{ title := "Article", file_name := "article.xhtml", lang := "en",
         content := introHtml data ++ data.body ++ commentsSectionHtml data.comments }] ∧
    (create_epub data cb).items.length = 1 ∧
    (create_epub data cb).cover = some ("cover.jpg", cb) ∧
    (commentsSectionHtml data.comments ≠ "" ↔ data.comments ≠ []) := by
  refine ⟨rfl, rfl, rfl, ?_⟩
  cases hcm : data.comments with
  | nil => simp [commentsSectionHtml]
  | cons c cs =>
    simp only [commentsSectionHtml, List.isEmpty_cons, if_false]
    constructor
    · intro _ hc
      cases hc
    · intro _
      exact append_ne_empty_left _ _ (by decide)

/-- C3: for every URL that passes the slug and domain checks and every
200-status metadata response missing the title, byline and date keys, the
fetch still returns a record (no error), with the fixed defaults "Untitled",
"Unknown Author" and "Undated". -/
theorem claim_C3_defaults (url : String) (env : Env)
    (h1 : pyFalsyStr (extract_slug url) = false)
    (h2 : pyContains url "//" = true)
    (hs : env.metaStatus = 200)
    (ht : env.metaBody.title = none)
    (hb : env.metaBody.publishedBylines = none)
    (hd : env.metaBody.post_date = none) :
    ∃ r : RecordData, get_substack_api_data url env = (some r, none) ∧
      r.title = "Untitled" ∧ r.author = "Unknown Author" ∧ r.date = "Undated" := by
  unfold get_substack_api_data
  rw [h1]
  simp only [Bool.false_eq_true, if_false, h2, not_true, if_neg (fun hq : ¬True => hq trivial)]
  unfold fetchBody
  rw [if_neg (fun hne => hne hs), hb, ht, hd]
  simp only [Option.getD_none]
  rw [show firstBylineE [{ name := none }] = .ok { name := none } from rfl]
  rw [show dateStrE none = .ok "Undated" from rfl]
  exact ⟨_, rfl, rfl, rfl, rfl⟩

/-- C3 witness: the theorem applied to a concrete valid URL and a 200-status
metadata response with all keys absent. -/
theorem claim_C3_witness :
    envC3.metaStatus = 200 ∧ envC3.metaBody.title = none ∧
    (∃ r : RecordData,
      get_substack_api_data "https://x.substack.com/p/a" envC3 = (some r, none) ∧
      r.title = "Untitled" ∧ r.author = "Unknown Author" ∧ r.date = "Undated") :=
  ⟨rfl, rfl,
   claim_C3_defaults "https://x.substack.com/p/a" envC3 (by decide) (by decide)
     rfl rfl rfl rfl⟩

/-- C5: for every URL passing the slug and domain checks and every
environment whose metadata request returns 200 (with parseable bylines and
date, a truthy post id) but whose comment request returns a non-200 status,
the fetch still returns a record, whose comments field is empty. -/
theorem claim_C5_comment_failure (url : String) (env : Env)
    (h1 : pyFalsyStr (extract_slug url) = false)
    (h2 : pyContains url "//" = true)
    (hs : env.metaStatus = 200)
    (hid : pyTruthyOptInt env.metaBody.id = true)
    (hc : env.commentStatus ≠ 200)
    (hbl : ∃ b bs, env.metaBody.publishedBylines.getD [{ name := none }] = b :: bs)
    (hdt : ∃ ds, dateStrE env.metaBody.post_date = Except.ok ds) :
    ∃ r : RecordData, get_substack_api_data url env = (some r, none) ∧
      r.comments = [] := by
  obtain ⟨b, bs, hcons⟩ := hbl
  obtain ⟨ds, hds⟩ := hdt
  unfold get_substack_api_data
  rw [h1]
  simp only [Bool.false_eq_true, if_false, h2, not_true, if_neg (fun hq : ¬True => hq trivial)]
  unfold fetchBody
  rw [if_neg (fun hne => hne hs), hcons]
  rw [show firstBylineE (b :: bs) = .ok b from rfl]
  rw [hds, hid]
  simp only [if_true, if_neg hc]
  exact ⟨_, rfl, rfl⟩

/-- C5 witness: the theorem applied to a concrete environment whose comment
request fails with status 404. -/
theorem claim_C5_witness :
    envC5.metaStatus = 200 ∧ envC5.commentStatus ≠ 200 ∧
    (∃ r : RecordData,
      get_substack_api_data "https://x.substack.com/p/a" envC5 = (some r, none) ∧
      r.comments = []) :=
  ⟨rfl, by decide,
   claim_C5_comment_failure "https://x.substack.com/p/a" envC5 (by decide) (by decide)
     rfl rfl (by decide) ⟨_, _, rfl⟩ ⟨_, rfl⟩⟩

/-- C9: for every URL and every network environment, the fetch returns
exactly one of: a record with no error, or no record with a non-empty error
message; being a total function, it raises nothing. -/
theorem claim_C9_total (url : String) (env : Env) :
    (∃ r, get_substack_api_data url env = (some r, none)) ∨
    (∃ e, get_substack_api_data url env = (none, some e) ∧ e ≠ "") := by
  by_cases h1 : pyFalsyStr (extract_slug url) = true
  · right
    have hmain : get_substack_api_data url env =
        (none, some "Invalid Substack URL. Must contain \x27/p/\x27.") := by
      unfold get_substack_api_data
      rw [if_pos h1]
    exact ⟨_, hmain, by decide⟩
  · by_cases h2 : pyContains url "//" = true
    · rcases fetchBody_cases url (parseDomain url) env with ⟨r, hr⟩ | ⟨e, he, hne⟩
      · left
        refine ⟨r, ?_⟩
        unfold get_substack_api_data
        rw [if_neg h1, if_neg (fun hq => hq h2), hr]
      · right
        refine ⟨e, ?_, hne⟩
        unfold get_substack_api_data
        rw [if_neg h1, if_neg (fun hq => hq h2), he]
    · right
      have hmain : get_substack_api_data url env = (none, some "Could not parse domain.") := by
        unfold get_substack_api_data
        rw [if_neg h1, if_pos (fun hq => h2 hq)]
      exact ⟨_, hmain, by decide⟩
